import Mathlib

/-!
# Verification of the Queue view-model (`Queue.tsx`)

Shallow embedding of the queue-management logic of
`Restaurant Management Dashboard UI/src/app/components/Queue.tsx`:
position assignment, estimated-wait-time (EWT) computation, the periodic
recomputation tick with its one-shot 5-minute notification, the
join/cancel handlers and the localStorage loaders.

Modelling conventions:
* Instants (`Date.now()`, `Date.getTime()`) are Unix milliseconds as `Int`.
* Minute quantities (`estimatedWaitMinutes`) are rationals (`ℚ`),
  idealising JS floating point: `diffMs / (1000 * 60)` is exact division.
* `new Date(dateStr)` followed by `setHours(h, min, 0, 0)` yields
  (midnight of the service date in local time) + `(h*60+min)` minutes;
  the date-string → midnight-instant map is an uninterpreted parameter
  `dayStartOf : String → Int` (time-zone resolution is environmental).
* Optional/absent strings (`undefined`) and empty strings are both JS-falsy
  in every place the component tests them, so `timeSlot`/`queueDate` are
  plain `String` with `""` standing for absent; genuinely optional record
  fields are `Option`.
* `parseInt` may yield `NaN`; a JS number that may be `NaN` is modelled as
  `Option Int` with `none` for `NaN` (note `NaN === NaN` is false, hence
  `guestsEq none none = false`).
* JS clips time values with `|t| > 8.64e15` ms to NaN (Invalid Date).
  The primary definitions (`parsePartL`, `computeEWT`, `joinInitialWait`)
  totalize this and are adequate only on claims restricted to well-formed
  slots or to slots the regex rejects; the TimeClip-faithful variants
  (`timeClip`, `parsePartClip`, `parseSlotTimesClip`, `computeEWTClip`,
  `joinInitialWaitClip`) model the NaN outcome for regex-parseable
  overflow slots and settle the non-negativity claim.
-/

/-- JS whitespace (the characters relevant to `String.prototype.trim` and
`\s`; restricted to the code points that can occur in this UI's data). -/
def isSpaceJS (c : Char) : Bool :=
  c = ' ' ∨ c = '\t' ∨ c = '\n' ∨ c = '\r' ∨ c = '\x0b' ∨ c = '\x0c' ∨
  c = ' ' ∨ c = '﻿'

/-- `String.prototype.trim` on a character list. -/
def jsTrimL (cs : List Char) : List Char :=
  ((cs.dropWhile isSpaceJS).reverse.dropWhile isSpaceJS).reverse

/-- `String.prototype.trim`. -/
def jsTrim (s : String) : String :=
  ⟨jsTrimL s.toList⟩

/-- `str.split(/[–-]/)` : split on every en-dash or hyphen, keeping empty
segments, as JS `split` does. -/
def splitOnDash : List Char → List (List Char)
  | [] => [[]]
  | c :: rest =>
    if c = '–' ∨ c = '-' then [] :: splitOnDash rest
    else
      match splitOnDash rest with
      | g :: gs => (c :: g) :: gs
      | [] => [[c]]

/-- `parseInt` of a non-empty all-digit capture group. -/
def digitsToNat (cs : List Char) : Nat :=
  cs.foldl (fun n c => n * 10 + (c.toNat - 48)) 0

/-- Case-insensitive `(AM|PM)` at the head of the list (`/i` flag):
`some false` = AM, `some true` = PM. -/
def matchAmPm : List Char → Option Bool
  | a :: m :: _ =>
    if (a = 'A' ∨ a = 'a') ∧ (m = 'M' ∨ m = 'm') then some false
    else if (a = 'P' ∨ a = 'p') ∧ (m = 'M' ∨ m = 'm') then some true
    else none
  | _ => none

/-- Attempt to match the regex `(\d+):(\d+)\s*(AM|PM)/i` anchored at the
head of the list, returning (hours capture, minutes capture, isPM).
Maximal munch is exact here: `\d` is disjoint from `:` and `\s` is
disjoint from `A/P`, so greedy matching never needs to backtrack. -/
def matchTimeAt (cs : List Char) : Option (Nat × Nat × Bool) :=
  let d1 := cs.takeWhile Char.isDigit
  let rest1 := cs.dropWhile Char.isDigit
  if d1 = [] then none
  else
    match rest1 with
    | ':' :: rest2 =>
      let d2 := rest2.takeWhile Char.isDigit
      let rest3 := rest2.dropWhile Char.isDigit
      if d2 = [] then none
      else
        match matchAmPm (rest3.dropWhile isSpaceJS) with
        | some pm => some (digitsToNat d1, digitsToNat d2, pm)
        | none => none
    | _ => none

/-- `p.match(/(\d+):(\d+)\s*(AM|PM)/i)` : leftmost occurrence anywhere in
the string (JS `match` is a search, not anchored). -/
def searchTime : List Char → Option (Nat × Nat × Bool)
  | [] => none
  | c :: rest =>
    match matchTimeAt (c :: rest) with
    | some r => some r
    | none => searchTime rest

/-- `parsePart` inside `parseSlotTimes`: regex-match one time-of-day token,
apply the 12-hour → 24-hour conversion, and place it on the service date.
`d.setHours(h, min, 0, 0)` starting from the date's midnight equals
midnight + (h*60+min) minutes, including JS's overflow roll-over — up to
the JS time range: this totalized version ignores `TimeClip` (instants
beyond ±8.64e15 ms become Invalid/NaN in JS); `parsePartClip` below is
the clip-faithful variant. -/
def parsePartL (dayStart : Int) (p : List Char) : Option Int :=
  match searchTime p with
  | none => none
  | some (h0, min, pm) =>
    let h1 := if pm ∧ h0 < 12 then h0 + 12 else h0
    let h := if (¬ pm) ∧ h1 = 12 then 0 else h1
    some (dayStart + ((h * 60 + min : Nat) : Int) * 60000)

/-- `parseSlotTimes(dateStr, timeSlot)` from `Queue.tsx`: reject falsy
slot strings, split on dashes, require at least two parts, trim each, and
regex-parse the first two into start/end instants on the service date.
`dayStart` is the instant `new Date(dateStr)` at local midnight. -/
def parseSlotTimes (dayStart : Int) (timeSlot : String) : Option (Int × Int) :=
  if timeSlot = "" then none
  else
    match (splitOnDash timeSlot.toList).map jsTrimL with
    | p0 :: p1 :: _ =>
      match parsePartL dayStart p0, parsePartL dayStart p1 with
      | some s, some e => some (s, e)
      | _, _ => none
    | _ => none

/-- `parseInt(s)` in base 10: skip leading whitespace, optional sign,
then a non-empty digit prefix; `none` models `NaN`. -/
def digitsPrefix (cs : List Char) : Option Nat :=
  let ds := cs.takeWhile Char.isDigit
  if ds = [] then none else some (digitsToNat ds)

/-- JS `parseInt` (decimal). -/
def parseIntJS (s : String) : Option Int :=
  match s.toList.dropWhile isSpaceJS with
  | '-' :: rest => (digitsPrefix rest).map (fun n => -(n : Int))
  | '+' :: rest => (digitsPrefix rest).map (fun n => (n : Int))
  | cs => (digitsPrefix cs).map (fun n => (n : Int))

/-- JS truthiness for an optional string: `undefined` and `""` are falsy. -/
def jsTruthy (o : Option String) : Option String :=
  match o with
  | some s => if s = "" then none else some s
  | none => none

/-- `a || d` for an optional string `a` and default `d`. -/
def jsOrD (o : Option String) (d : String) : String :=
  (jsTruthy o).getD d

/-- `a || b || d` for optional strings `a`, `b` and default `d`. -/
def jsOr2 (a b : Option String) (d : String) : String :=
  match jsTruthy a with
  | some s => s
  | none => jsOrD b d

/-- `===` on JS numbers that may be `NaN` (`none`): `NaN === NaN` is false. -/
def guestsEq (a b : Option Int) : Bool :=
  match a, b with
  | some x, some y => x == y
  | _, _ => false

/-- The `QueueEntry` record of `Queue.tsx`. `joinedAt` is the instant in
Unix ms; `timeSlot`/`queueDate` use `""` for absent (JS-falsy either way);
`guests` is `Option Int` with `none` for `NaN` (see module comment). -/
structure QueueEntry where
  id : String
  name : String
  guests : Option Int
  notificationMethod : String
  contact : String
  hall : String
  segment : String
  position : Nat
  estimatedWaitMinutes : ℚ
  joinedAt : Int
  queueDate : String
  timeSlot : String
  notifiedAt5Min : Bool
  tableName : Option String := none
  tableId : Option String := none
  tableLocation : Option String := none
  tableSegment : Option String := none
  tableCapacity : Option String := none
  joinedAtTimestamp : Option Int := none
  deriving Repr, DecidableEq

/-- The `PendingQueueData` record staged by the Reservation page. -/
structure PendingQueueData where
  queueDate : Option String := none
  timeSlot : Option String := none
  guests : Option String := none
  location : Option String := none
  segment : Option String := none
  tableName : Option String := none
  tableId : Option String := none
  tableLocation : Option String := none
  tableSegment : Option String := none
  tableCapacity : Option String := none
  deriving Repr, DecidableEq

/-- The Name/Contact form state. -/
structure FormData where
  name : String
  contact : String
  deriving Repr, DecidableEq

/-- The component state the queue handlers read and write. -/
structure QueueState where
  queueDatabase : List QueueEntry
  currentUserEntry : Option QueueEntry
  formData : FormData
  pendingData : Option PendingQueueData
  showForm : Bool
  showStatus : Bool
  deriving Repr, DecidableEq

/-- `calculatePosition(guests, hall, segment)`: count of existing entries
with the exact same (guests, hall, segment) combination, plus one. -/
def calculatePosition (db : List QueueEntry) (guests : Option Int)
    (hall segment : String) : Nat :=
  (db.filter (fun entry =>
    guestsEq entry.guests guests && entry.hall == hall &&
      entry.segment == segment)).length + 1

/-- The new `estimatedWaitMinutes` computed by the one-second interval
callback: slot-based `max(0, start − now)` when a truthy slot and date are
present and the slot parses (a non-parsing slot leaves the initial `0`),
otherwise the position-based fallback `max(0, position*15 − elapsed)`.
Inherits `parsePartL`'s totalization of `TimeClip`; `computeEWTClip`
below models the NaN tick outcome for regex-parseable overflow slots. -/
def computeEWT (dayStartOf : String → Int) (now : Int) (prev : QueueEntry) : ℚ :=
  if prev.timeSlot ≠ "" ∧ prev.queueDate ≠ "" then
    match parseSlotTimes (dayStartOf prev.queueDate) prev.timeSlot with
    | some se => max 0 (((se.1 - now : Int) : ℚ) / (1000 * 60))
    | none => 0
  else
    max 0 ((prev.position : ℚ) * 15 -
      ((now - prev.joinedAt : Int) : ℚ) / (1000 * 60))

/-- One interval tick on the current-user entry: recompute the EWT and,
when it first lies in (0, 5] with the flag still unset, fire the alert
(the returned `Bool`) and set `notifiedAt5Min`. -/
def tickEntry (dayStartOf : String → Int) (now : Int) (prev : QueueEntry) :
    QueueEntry × Bool :=
  if computeEWT dayStartOf now prev ≤ 5 ∧ 0 < computeEWT dayStartOf now prev ∧
      prev.notifiedAt5Min = false then
    ({ prev with
        estimatedWaitMinutes := computeEWT dayStartOf now prev
        notifiedAt5Min := true }, true)
  else
    ({ prev with estimatedWaitMinutes := computeEWT dayStartOf now prev }, false)

/-- Run a sequence of interval ticks at the given instants, counting how
many of them fired the user-facing alert. -/
def runTicks (dayStartOf : String → Int) (e : QueueEntry) :
    List Int → QueueEntry × Nat
  | [] => (e, 0)
  | t :: ts =>
    ((runTicks dayStartOf (tickEntry dayStartOf t e).1 ts).1,
      (if (tickEntry dayStartOf t e).2 then 1 else 0) +
        (runTicks dayStartOf (tickEntry dayStartOf t e).1 ts).2)

/-- Outcome surfaced by `handleJoinQueue`: one of the two synchronous
validation alerts, or a successful join reporting the adopted position. -/
inductive JoinResult where
  | nameError
  | contactError
  | joined (position : Nat)
  deriving Repr, DecidableEq

/-- `pendingData?.queueDate || today` (the code computes today's date
string from the clock; here it is the `today` parameter). -/
def joinQueueDate (pd : Option PendingQueueData) (today : String) : String :=
  jsOrD (pd.bind (·.queueDate)) today

/-- `pendingData?.timeSlot || ""`. -/
def joinTimeSlot (pd : Option PendingQueueData) : String :=
  jsOrD (pd.bind (·.timeSlot)) ""

/-- `parseInt(pendingData?.guests || "2")`. -/
def joinGuests (pd : Option PendingQueueData) : Option Int :=
  parseIntJS (jsOrD (pd.bind (·.guests)) "2")

/-- `pendingData?.tableLocation || pendingData?.location || "Any"`. -/
def joinHall (pd : Option PendingQueueData) : String :=
  jsOr2 (pd.bind (·.tableLocation)) (pd.bind (·.location)) "Any"

/-- `pendingData?.tableSegment || pendingData?.segment || "Any"`. -/
def joinSegment (pd : Option PendingQueueData) : String :=
  jsOr2 (pd.bind (·.tableSegment)) (pd.bind (·.segment)) "Any"

/-- The `initialWaitMinutes` computed at the instant of submission:
starts from the position-based fallback `position * 15`, overwritten by
the slot-based `max(0, start − now)` only when a truthy slot and date are
present and the slot parses. Inherits `parsePartL`'s totalization of
`TimeClip`; `joinInitialWaitClip` below models the NaN join outcome for
regex-parseable overflow slots. -/
def joinInitialWait (dayStartOf : String → Int) (queueDate timeSlot : String)
    (pos : Nat) (nowMs : Int) : ℚ :=
  if timeSlot ≠ "" ∧ queueDate ≠ "" then
    match parseSlotTimes (dayStartOf queueDate) timeSlot with
    | some se => max 0 (((se.1 - nowMs : Int) : ℚ) / (1000 * 60))
    | none => (pos : ℚ) * 15
  else (pos : ℚ) * 15

/-- The `newEntry` record built by `handleJoinQueue` after validation:
details resolved from `pendingData` (or defaults), the optimistic
position from `calculatePosition`, and the initial EWT captured at the
join-press instant. -/
def joinEntry (dayStartOf : String → Int) (today : String) (nowMs : Int)
    (st : QueueState) : QueueEntry :=
  let pd := st.pendingData
  let queueDate := joinQueueDate pd today
  let timeSlot := joinTimeSlot pd
  let guests := joinGuests pd
  let hall := joinHall pd
  let segment := joinSegment pd
  let optimisticPosition := calculatePosition st.queueDatabase guests hall segment
  { id := "QUEUE" ++ toString nowMs
    name := st.formData.name
    guests := guests
    notificationMethod := "sms"
    contact := st.formData.contact
    hall := hall
    segment := segment
    position := optimisticPosition
    estimatedWaitMinutes := joinInitialWait dayStartOf queueDate timeSlot optimisticPosition nowMs
    joinedAt := nowMs
    joinedAtTimestamp := some nowMs
    queueDate := queueDate
    timeSlot := timeSlot
    notifiedAt5Min := false
    tableName := pd.bind (·.tableName)
    tableId := pd.bind (·.tableId)
    tableLocation := pd.bind (·.tableLocation)
    tableSegment := pd.bind (·.tableSegment)
    tableCapacity := pd.bind (·.tableCapacity) }

/-- `handleJoinQueue`: validate the trimmed name and contact (aborting
with an alert and no state change when either is empty), build the new
entry per `joinEntry`, then either adopt the server-created entry
(`remote = some created`) or keep the optimistic one (`remote = none`,
the catch path). Either path appends to the list, sets the current-user
entry and shows the status view. The in-memory `pendingData` state is
not cleared here (only its persisted copy is removed). -/
def handleJoinQueue (dayStartOf : String → Int) (today : String) (nowMs : Int)
    (remote : Option QueueEntry) (st : QueueState) : QueueState × JoinResult :=
  if jsTrim st.formData.name = "" then (st, .nameError)
  else if jsTrim st.formData.contact = "" then (st, .contactError)
  else
    let adopted := remote.getD (joinEntry dayStartOf today nowMs st)
    ({ st with
        queueDatabase := st.queueDatabase ++ [adopted]
        currentUserEntry := some adopted
        showStatus := true
        showForm := true },
      .joined adopted.position)

/-- Run `handleJoinQueue` repeatedly with the remote call failing (the
locally-optimistic path), one join per instant, collecting the positions
reported for the successful joins. -/
def runLocalJoins (dayStartOf : String → Int) (today : String) (st : QueueState) :
    List Int → QueueState × List Nat
  | [] => (st, [])
  | t :: ts =>
    match (handleJoinQueue dayStartOf today t none st).2 with
    | .joined p =>
      ((runLocalJoins dayStartOf today (handleJoinQueue dayStartOf today t none st).1 ts).1,
        p :: (runLocalJoins dayStartOf today (handleJoinQueue dayStartOf today t none st).1 ts).2)
    | _ => runLocalJoins dayStartOf today (handleJoinQueue dayStartOf today t none st).1 ts

/-- Result of the best-effort `fetchQueueEntries` refresh after a cancel. -/
inductive RemoteList where
  | ok (entries : List QueueEntry)
  | err
  deriving Repr, DecidableEq

/-- `handleCancelQueue`: no-op without a current entry or without the
user's confirmation; otherwise attempt the remote cancel (`cancelOk`),
then the remote refresh (`refresh`); on either failure filter the entry
out of the local list by id. Always clears the current-user entry, the
form fields and the staged pending data. -/
def handleCancelQueue (confirmed : Bool) (cancelOk : Bool) (refresh : RemoteList)
    (st : QueueState) : QueueState :=
  match st.currentUserEntry with
  | none => st
  | some cur =>
    if confirmed then
      let db :=
        if cancelOk then
          match refresh with
          | .ok refreshed => refreshed
          | .err => st.queueDatabase.filter (fun e => e.id ≠ cur.id)
        else st.queueDatabase.filter (fun entry => entry.id ≠ cur.id)
      { queueDatabase := db
        currentUserEntry := none
        formData := { name := "", contact := "" }
        pendingData := none
        showForm := false
        showStatus := false }
    else st

/-- A queue entry as persisted: the spread `{...e}` plus the raw
`joinedAt` field, `none` when absent or falsy. -/
structure RawQueueEntry where
  entry : QueueEntry
  joinedAtRaw : Option Int
  deriving Repr, DecidableEq

/-- `{...e, joinedAt: e?.joinedAt ? new Date(e.joinedAt) : new Date()}`. -/
def reviveEntry (nowMs : Int) (r : RawQueueEntry) : QueueEntry :=
  { r.entry with joinedAt := r.joinedAtRaw.getD nowMs }

/-- The shape `JSON.parse` can return for the persisted list:
an array of entries, or some non-array value. -/
inductive ParsedJson where
  | arr (es : List RawQueueEntry)
  | nonArray
  deriving Repr, DecidableEq

/-- The `queueDatabase` useState initializer: absent key → `[]`; a string
whose `JSON.parse` throws (`Except.error`, caught by the `try`/`catch`)
→ `[]`; a parsed non-array → `[]`; a parsed array → entries with their
`joinedAt` revived. -/
def loadQueueDatabase (nowMs : Int)
    (saved : Option (Except Unit ParsedJson)) : List QueueEntry :=
  match saved with
  | none => []
  | some (.error _) => []
  | some (.ok (.arr es)) => es.map (reviveEntry nowMs)
  | some (.ok .nonArray) => []

/-- The `currentUserEntry` useState initializer: absent key → `null`;
otherwise `JSON.parse(saved)` with NO try/catch, so a malformed string
makes the initializer throw — modelled by propagating `Except.error`.
On success the `joinedAt` revival is the identity on the instant. -/
def loadCurrentUserEntry (saved : Option (Except Unit QueueEntry)) :
    Except Unit (Option QueueEntry) :=
  match saved with
  | none => .ok none
  | some (.error u) => .error u
  | some (.ok entry) => .ok (some entry)

/-! ## TimeClip-faithful wait-time computation

ECMAScript clips any time value with absolute value beyond 8.64e15 ms to
NaN (an Invalid Date). The definitions above totalize this (adequate for
claims whose domain is well-formed slots or slots that fail the regex);
the variants below carry the clip, so that a regex-parseable slot whose
hour token overflows the time range yields the program's actual NaN
outcome (`Math.max(0, NaN) = NaN`), modelled as `none`. -/

/-- ECMAScript `TimeClip`: time values with `|t| > 8.64e15` ms become NaN
(`none`). -/
def timeClip (t : Int) : Option Int :=
  if t.natAbs ≤ 8640000000000000 then some t else none

/-- `parsePart` with the `setHours` result clipped as JS does:
`some none` is a successfully regex-parsed token whose instant overflows
the time range (an Invalid Date). -/
def parsePartClip (dayStart : Int) (p : List Char) : Option (Option Int) :=
  match searchTime p with
  | none => none
  | some (h0, min, pm) =>
    let h1 := if pm ∧ h0 < 12 then h0 + 12 else h0
    let h := if (¬ pm) ∧ h1 = 12 then 0 else h1
    some (timeClip (dayStart + ((h * 60 + min : Nat) : Int) * 60000))

/-- `parseSlotTimes` with TimeClip: an Invalid Date object is still
truthy in JS, so `if (!start || !end) return null` does not reject it —
the parse succeeds and hands NaN instants to the caller. -/
def parseSlotTimesClip (dayStart : Int) (timeSlot : String) :
    Option (Option Int × Option Int) :=
  if timeSlot = "" then none
  else
    match (splitOnDash timeSlot.toList).map jsTrimL with
    | p0 :: p1 :: _ =>
      match parsePartClip dayStart p0, parsePartClip dayStart p1 with
      | some s, some e => some (s, e)
      | _, _ => none
    | _ => none

/-- The tick's new `estimatedWaitMinutes` with TimeClip: `none` models
the program computing NaN (`slots.start.getTime()` is NaN, so
`Math.max(0, NaN)` is NaN). -/
def computeEWTClip (dayStartOf : String → Int) (now : Int)
    (prev : QueueEntry) : Option ℚ :=
  if prev.timeSlot ≠ "" ∧ prev.queueDate ≠ "" then
    match parseSlotTimesClip (dayStartOf prev.queueDate) prev.timeSlot with
    | some (some start, _) =>
      some (max 0 (((start - now : Int) : ℚ) / (1000 * 60)))
    | some (none, _) => none
    | none => some 0
  else
    some (max 0 ((prev.position : ℚ) * 15 -
      ((now - prev.joinedAt : Int) : ℚ) / (1000 * 60)))

/-- The join-time `initialWaitMinutes` with TimeClip: `none` models the
program setting it to `Math.max(0, NaN) = NaN` for a regex-parseable
slot whose start instant is clipped. -/
def joinInitialWaitClip (dayStartOf : String → Int) (queueDate timeSlot : String)
    (pos : Nat) (nowMs : Int) : Option ℚ :=
  if timeSlot ≠ "" ∧ queueDate ≠ "" then
    match parseSlotTimesClip (dayStartOf queueDate) timeSlot with
    | some (some start, _) =>
      some (max 0 (((start - nowMs : Int) : ℚ) / (1000 * 60)))
    | some (none, _) => none
    | none => some ((pos : ℚ) * 15)
  else some ((pos : ℚ) * 15)

/-! ## Helper definitions and lemmas -/

/-- Count of existing entries sharing the exact (guests, hall, segment)
combination — the quantity `calculatePosition` adds one to. -/
def countMatching (db : List QueueEntry) (guests : Option Int)
    (hall segment : String) : Nat :=
  (db.filter (fun entry =>
    guestsEq entry.guests guests && entry.hall == hall &&
      entry.segment == segment)).length

lemma calculatePosition_eq (db : List QueueEntry) (g : Option Int)
    (h s : String) : calculatePosition db g h s = countMatching db g h s + 1 :=
  rfl

lemma countMatching_append (db : List QueueEntry) (e : QueueEntry)
    (g : Option Int) (h s : String) :
    countMatching (db ++ [e]) g h s =
      countMatching db g h s +
        (if guestsEq e.guests g && e.hall == h && e.segment == s then 1 else 0) := by
  unfold countMatching
  rw [List.filter_append, List.length_append]
  by_cases hb : (guestsEq e.guests g && e.hall == h && e.segment == s) = true
  · simp [hb]
  · simp [hb]

lemma tickEntry_ewt (d : String → Int) (t : Int) (e : QueueEntry) :
    (tickEntry d t e).1.estimatedWaitMinutes = computeEWT d t e := by
  unfold tickEntry
  split <;> rfl

lemma tickEntry_flag (d : String → Int) (t : Int) (e : QueueEntry) :
    (tickEntry d t e).1.notifiedAt5Min =
      (e.notifiedAt5Min ||
        decide (0 < computeEWT d t e ∧ computeEWT d t e ≤ 5)) := by
  unfold tickEntry
  split
  · next hcond =>
    simp [hcond.2.2, hcond.1, hcond.2.1]
  · next hcond =>
    by_cases hf : e.notifiedAt5Min = true
    · simp [hf]
    · have hf' : e.notifiedAt5Min = false := by
        cases hfb : e.notifiedAt5Min
        · rfl
        · exact absurd hfb hf
      have hnc : ¬(0 < computeEWT d t e ∧ computeEWT d t e ≤ 5) := by
        intro hc
        exact hcond ⟨hc.2, hc.1, hf'⟩
      simp [hf', hnc]

lemma tickEntry_fired (d : String → Int) (t : Int) (e : QueueEntry) :
    (tickEntry d t e).2 =
      (!e.notifiedAt5Min &&
        decide (0 < computeEWT d t e ∧ computeEWT d t e ≤ 5)) := by
  unfold tickEntry
  split
  · next hcond =>
    simp [hcond.2.2, hcond.1, hcond.2.1]
  · next hcond =>
    by_cases hf : e.notifiedAt5Min = true
    · simp [hf]
    · have hf' : e.notifiedAt5Min = false := by
        cases hfb : e.notifiedAt5Min
        · rfl
        · exact absurd hfb hf
      have hnc : ¬(0 < computeEWT d t e ∧ computeEWT d t e ≤ 5) := by
        intro hc
        exact hcond ⟨hc.2, hc.1, hf'⟩
      simp [hf', hnc]

lemma runTicks_of_flagged (d : String → Int) (ts : List Int) :
    ∀ e : QueueEntry, e.notifiedAt5Min = true →
      (runTicks d e ts).2 = 0 ∧ (runTicks d e ts).1.notifiedAt5Min = true := by
  induction ts with
  | nil => intro e he; exact ⟨rfl, he⟩
  | cons t ts ih =>
    intro e he
    have hflag : (tickEntry d t e).1.notifiedAt5Min = true := by
      rw [tickEntry_flag, he, Bool.true_or]
    have hfired : (tickEntry d t e).2 = false := by
      rw [tickEntry_fired, he]
      simp
    have hrest := ih (tickEntry d t e).1 hflag
    refine ⟨?_, ?_⟩
    · show (if (tickEntry d t e).2 then 1 else 0) +
        (runTicks d (tickEntry d t e).1 ts).2 = 0
      rw [hfired, hrest.1]
      simp
    · show (runTicks d (tickEntry d t e).1 ts).1.notifiedAt5Min = true
      exact hrest.2

lemma runTicks_count_le_one (d : String → Int) (ts : List Int) :
    ∀ e : QueueEntry, (runTicks d e ts).2 ≤ 1 := by
  induction ts with
  | nil => intro e; exact Nat.zero_le 1
  | cons t ts ih =>
    intro e
    show (if (tickEntry d t e).2 then 1 else 0) +
      (runTicks d (tickEntry d t e).1 ts).2 ≤ 1
    by_cases hfired : (tickEntry d t e).2 = true
    · have hflag : (tickEntry d t e).1.notifiedAt5Min = true := by
        rw [tickEntry_fired] at hfired
        rw [tickEntry_flag]
        have hcond := (Bool.and_eq_true _ _ ▸ hfired).2
        rw [hcond, Bool.or_true]
      have hrest := (runTicks_of_flagged d ts (tickEntry d t e).1 hflag).1
      rw [hfired, hrest]
      simp
    · have hfired' : (tickEntry d t e).2 = false := by
        cases hb : (tickEntry d t e).2
        · rfl
        · exact absurd hb hfired
      have hrest := ih (tickEntry d t e).1
      rw [hfired']
      simpa using hrest

lemma handleJoin_success (d : String → Int) (today : String) (t : Int)
    (remote : Option QueueEntry) (st : QueueState)
    (hn : jsTrim st.formData.name ≠ "") (hc : jsTrim st.formData.contact ≠ "") :
    handleJoinQueue d today t remote st =
      ({ st with
          queueDatabase := st.queueDatabase ++ [remote.getD (joinEntry d today t st)]
          currentUserEntry := some (remote.getD (joinEntry d today t st))
          showStatus := true
          showForm := true },
        .joined (remote.getD (joinEntry d today t st)).position) := by
  unfold handleJoinQueue
  rw [if_neg hn, if_neg hc]

lemma handleJoin_abort (d : String → Int) (today : String) (t : Int)
    (remote : Option QueueEntry) (st : QueueState)
    (h : jsTrim st.formData.name = "" ∨ jsTrim st.formData.contact = "") :
    handleJoinQueue d today t remote st = (st, .nameError) ∨
      handleJoinQueue d today t remote st = (st, .contactError) := by
  unfold handleJoinQueue
  by_cases hn : jsTrim st.formData.name = ""
  · left; rw [if_pos hn]
  · right
    have hc : jsTrim st.formData.contact = "" := h.resolve_left hn
    rw [if_neg hn, if_pos hc]

lemma joinEntry_matches (d : String → Int) (today : String) (t : Int)
    (st : QueueState) (hg : (joinGuests st.pendingData).isSome = true) :
    (guestsEq (joinEntry d today t st).guests (joinGuests st.pendingData) &&
      (joinEntry d today t st).hall == joinHall st.pendingData &&
      (joinEntry d today t st).segment == joinSegment st.pendingData) = true := by
  obtain ⟨x, hx⟩ := Option.isSome_iff_exists.mp hg
  show (guestsEq (joinGuests st.pendingData) (joinGuests st.pendingData) &&
    joinHall st.pendingData == joinHall st.pendingData &&
    joinSegment st.pendingData == joinSegment st.pendingData) = true
  rw [hx]
  simp [guestsEq]

lemma runLocalJoins_positions (d : String → Int) (today : String) (ts : List Int) :
    ∀ st : QueueState,
      jsTrim st.formData.name ≠ "" → jsTrim st.formData.contact ≠ "" →
      (joinGuests st.pendingData).isSome = true →
      (runLocalJoins d today st ts).2 =
        List.range'
          (countMatching st.queueDatabase (joinGuests st.pendingData)
            (joinHall st.pendingData) (joinSegment st.pendingData) + 1)
          ts.length := by
  induction ts with
  | nil => intro st hn hc hg; rfl
  | cons t ts ih =>
    intro st hn hc hg
    have hstep := handleJoin_success d today t none st hn hc
    have hpos : (Option.getD (none : Option QueueEntry) (joinEntry d today t st)).position =
        countMatching st.queueDatabase (joinGuests st.pendingData)
          (joinHall st.pendingData) (joinSegment st.pendingData) + 1 := rfl
    simp only [runLocalJoins, hstep, hpos, List.length_cons]
    have hdb : countMatching
        (st.queueDatabase ++ [Option.getD (none : Option QueueEntry) (joinEntry d today t st)])
        (joinGuests st.pendingData) (joinHall st.pendingData) (joinSegment st.pendingData) =
        countMatching st.queueDatabase (joinGuests st.pendingData)
          (joinHall st.pendingData) (joinSegment st.pendingData) + 1 := by
      rw [countMatching_append]
      rw [show (Option.getD (none : Option QueueEntry) (joinEntry d today t st)) =
        joinEntry d today t st from rfl]
      rw [if_pos (joinEntry_matches d today t st hg)]
    have hrest := ih
      ({ st with
          queueDatabase := st.queueDatabase ++
            [Option.getD (none : Option QueueEntry) (joinEntry d today t st)]
          currentUserEntry := some (Option.getD (none : Option QueueEntry) (joinEntry d today t st))
          showStatus := true
          showForm := true }) hn hc hg
    rw [hrest]
    show _ = List.range' _ (ts.length + 1)
    rw [List.range'_succ]
    congr 1
    rw [hdb]

lemma joinInitialWait_of_parse_none (d : String → Int) (qd tsl : String)
    (pos : Nat) (nowMs : Int) (hp : parseSlotTimes (d qd) tsl = none) :
    joinInitialWait d qd tsl pos nowMs = (pos : ℚ) * 15 := by
  unfold joinInitialWait
  split
  · rw [hp]
  · rfl

lemma joinEntry_ewt (d : String → Int) (today : String) (t : Int)
    (st : QueueState) :
    (joinEntry d today t st).estimatedWaitMinutes =
      joinInitialWait d (joinQueueDate st.pendingData today)
        (joinTimeSlot st.pendingData)
        (calculatePosition st.queueDatabase (joinGuests st.pendingData)
          (joinHall st.pendingData) (joinSegment st.pendingData)) t := rfl

/-! ## Claim theorems -/

/-- C1: the position assigned to a new entrant equals the count of
existing entries whose guests, hall and segment all equal the triple,
plus one; consequently, starting from a snapshot with no entries matching
the triple, N sequential local joins with the same triple (no removals in
between) receive positions 1..N in join order. -/
theorem position_is_count_plus_one :
    (∀ (db : List QueueEntry) (g : Option Int) (h s : String),
      calculatePosition db g h s = countMatching db g h s + 1) ∧
    (∀ (d : String → Int) (today : String) (st : QueueState) (ts : List Int),
      jsTrim st.formData.name ≠ "" → jsTrim st.formData.contact ≠ "" →
      (joinGuests st.pendingData).isSome = true →
      countMatching st.queueDatabase (joinGuests st.pendingData)
        (joinHall st.pendingData) (joinSegment st.pendingData) = 0 →
      (runLocalJoins d today st ts).2 = List.range' 1 ts.length) := by
  refine ⟨fun db g h s => rfl, ?_⟩
  intro d today st ts hn hc hg h0
  rw [runLocalJoins_positions d today ts st hn hc hg, h0]

/-- Witness for C1: three local joins with the default triple starting
from an empty queue receive positions 1, 2, 3. -/
theorem position_is_count_plus_one_witness :
    (runLocalJoins (fun _ => 0) "2026-01-01"
      { queueDatabase := [], currentUserEntry := none,
        formData := { name := "Alice", contact := "12345" },
        pendingData := none, showForm := false, showStatus := false }
      [0, 1000, 2000]).2 = List.range' 1 3 :=
  position_is_count_plus_one.2 (fun _ => 0) "2026-01-01" _ [0, 1000, 2000]
    (by decide) (by decide) (by decide) rfl

/-- C2 counterexample: the slot string "2400000001:00 AM – 6:30 PM" is
regex-parseable, but its hour token places the start instant beyond the
JS time range, so the program's `slots.start.getTime()` is NaN and both
the tick and the join compute `Math.max(0, NaN) = NaN` — which is not a
number greater than or equal to zero. -/
theorem ewt_nan_counterexample :
    computeEWTClip (fun _ => 0) 0
      { id := "QUEUE1", name := "Eve", guests := some 2,
        notificationMethod := "sms", contact := "12345", hall := "Any",
        segment := "Any", position := 3, estimatedWaitMinutes := 45,
        joinedAt := 0, queueDate := "2026-01-01",
        timeSlot := "2400000001:00 AM – 6:30 PM",
        notifiedAt5Min := false } = none ∧
    (∀ q : ℚ, 0 ≤ q →
      computeEWTClip (fun _ => 0) 0
        { id := "QUEUE1", name := "Eve", guests := some 2,
          notificationMethod := "sms", contact := "12345", hall := "Any",
          segment := "Any", position := 3, estimatedWaitMinutes := 45,
          joinedAt := 0, queueDate := "2026-01-01",
          timeSlot := "2400000001:00 AM – 6:30 PM",
          notifiedAt5Min := false } ≠ some q) ∧
    joinInitialWaitClip (fun _ => 0) "2026-01-01"
      "2400000001:00 AM – 6:30 PM" 1 0 = none := by
  refine ⟨by decide, ?_, by decide⟩
  intro q _ hcon
  rw [show computeEWTClip (fun _ => 0) 0
      { id := "QUEUE1", name := "Eve", guests := some 2,
        notificationMethod := "sms", contact := "12345", hall := "Any",
        segment := "Any", position := 3, estimatedWaitMinutes := 45,
        joinedAt := 0, queueDate := "2026-01-01",
        timeSlot := "2400000001:00 AM – 6:30 PM",
        notifiedAt5Min := false } = none from by decide] at hcon
  exact Option.noConfusion hcon

/-- C2 amended: whenever the estimated wait the program computes — at
join and on every recomputation tick — is a number at all, it is greater
than or equal to zero (zero meaning the table is ready now); the only
non-number outcome is the NaN produced when a regex-parseable slot
overflows the JS time range. -/
theorem ewt_nonneg_of_number :
    (∀ (d : String → Int) (t : Int) (e : QueueEntry) (q : ℚ),
      computeEWTClip d t e = some q → 0 ≤ q) ∧
    (∀ (d : String → Int) (qd tsl : String) (pos : Nat) (t : Int) (q : ℚ),
      joinInitialWaitClip d qd tsl pos t = some q → 0 ≤ q) := by
  constructor
  · intro d t e q hq
    unfold computeEWTClip at hq
    split at hq
    · split at hq
      · injection hq with hq'
        rw [← hq']
        exact le_max_left 0 _
      · exact Option.noConfusion hq
      · injection hq with hq'
        rw [← hq']
    · injection hq with hq'
      rw [← hq']
      exact le_max_left 0 _
  · intro d qd tsl pos t q hq
    have hpos : (0 : ℚ) ≤ (pos : ℚ) * 15 := by positivity
    unfold joinInitialWaitClip at hq
    split at hq
    · split at hq
      · injection hq with hq'
        rw [← hq']
        exact le_max_left 0 _
      · exact Option.noConfusion hq
      · injection hq with hq'
        rw [← hq']
        exact hpos
    · injection hq with hq'
      rw [← hq']
      exact hpos

/-- Witness for the amended C2: a slotless entry at position 3 with 10
minutes elapsed computes the number 35, which is non-negative. -/
theorem ewt_nonneg_of_number_witness :
    computeEWTClip (fun _ => 0) 600000
      { id := "QUEUE1", name := "Alice", guests := some 2,
        notificationMethod := "sms", contact := "12345", hall := "Any",
        segment := "Any", position := 3, estimatedWaitMinutes := 45,
        joinedAt := 0, queueDate := "2026-01-01", timeSlot := "",
        notifiedAt5Min := false } = some 35 ∧ (0 : ℚ) ≤ 35 := by
  have h35 : computeEWTClip (fun _ => 0) 600000
      { id := "QUEUE1", name := "Alice", guests := some 2,
        notificationMethod := "sms", contact := "12345", hall := "Any",
        segment := "Any", position := 3, estimatedWaitMinutes := 45,
        joinedAt := 0, queueDate := "2026-01-01", timeSlot := "",
        notifiedAt5Min := false } = some 35 := by
    unfold computeEWTClip
    rw [if_neg (fun hcon => hcon.1 rfl)]
    norm_num
  exact ⟨h35, ewt_nonneg_of_number.1 (fun _ => 0) 600000 _ 35 h35⟩

/-- C3: when the entry carries a well-formed time slot on its service
date, the tick-recomputed estimated wait equals
max(0, slot start − now) in minutes. -/
theorem slot_based_ewt (d : String → Int) (now : Int) (e : QueueEntry)
    (s en : Int) (hts : e.timeSlot ≠ "") (hqd : e.queueDate ≠ "")
    (hparse : parseSlotTimes (d e.queueDate) e.timeSlot = some (s, en)) :
    (tickEntry d now e).1.estimatedWaitMinutes =
      max 0 (((s - now : Int) : ℚ) / (1000 * 60)) := by
  rw [tickEntry_ewt]
  unfold computeEWT
  rw [if_pos ⟨hts, hqd⟩, hparse]

/-- Witness for C3: slot "6:00 PM – 6:30 PM" evaluated at 5:45 PM on the
service date gives exactly 15 minutes. -/
theorem slot_based_ewt_witness :
    (tickEntry (fun _ => 0) 63900000
      { id := "QUEUE1", name := "Alice", guests := some 2,
        notificationMethod := "sms", contact := "12345", hall := "Any",
        segment := "Any", position := 1, estimatedWaitMinutes := 0,
        joinedAt := 0, queueDate := "2026-05-01",
        timeSlot := "6:00 PM – 6:30 PM",
        notifiedAt5Min := false }).1.estimatedWaitMinutes = 15 := by
  rw [slot_based_ewt (fun _ => 0) 63900000 _ 64800000 66600000
    (by decide) (by decide) (by decide)]
  norm_num

/-- C4: when the entry has no time slot, the tick-recomputed estimated
wait equals max(0, position × 15 minutes − minutes elapsed since the
captured join instant). -/
theorem fallback_ewt (d : String → Int) (now : Int) (e : QueueEntry)
    (hts : e.timeSlot = "") :
    (tickEntry d now e).1.estimatedWaitMinutes =
      max 0 ((e.position : ℚ) * 15 -
        ((now - e.joinedAt : Int) : ℚ) / (1000 * 60)) := by
  rw [tickEntry_ewt]
  unfold computeEWT
  rw [if_neg (fun hcon => hcon.1 hts)]

/-- Witness for C4: position 3 with 10 minutes elapsed and no slot gives
exactly 35 minutes. -/
theorem fallback_ewt_witness :
    (tickEntry (fun _ => 0) 600000
      { id := "QUEUE1", name := "Alice", guests := some 2,
        notificationMethod := "sms", contact := "12345", hall := "Any",
        segment := "Any", position := 3, estimatedWaitMinutes := 45,
        joinedAt := 0, queueDate := "2026-05-01", timeSlot := "",
        notifiedAt5Min := false }).1.estimatedWaitMinutes = 35 := by
  rw [fallback_ewt (fun _ => 0) 600000 _ rfl]
  norm_num

/-- C5: a tick fires the alert exactly when the freshly computed EWT lies
in (0, 5] and the flag is still false; the tick sets the flag exactly
when it was set or the EWT lies in (0, 5]; it never clears the flag, so
along any sequence of ticks at most one alert fires, and none at all
once the flag is set. -/
theorem threshold_alert_once (d : String → Int) (t : Int) (e : QueueEntry)
    (ts : List Int) :
    (tickEntry d t e).2 =
      (!e.notifiedAt5Min &&
        decide (0 < computeEWT d t e ∧ computeEWT d t e ≤ 5)) ∧
    (tickEntry d t e).1.notifiedAt5Min =
      (e.notifiedAt5Min ||
        decide (0 < computeEWT d t e ∧ computeEWT d t e ≤ 5)) ∧
    (runTicks d e ts).2 ≤ 1 ∧
    (e.notifiedAt5Min = true → (runTicks d e ts).2 = 0) :=
  ⟨tickEntry_fired d t e, tickEntry_flag d t e, runTicks_count_le_one d ts e,
    fun he => (runTicks_of_flagged d ts e he).1⟩

/-- Witness for C5: an already-notified entry fires no alert over a
sequence of ticks. -/
theorem threshold_alert_once_witness :
    (runTicks (fun _ => 0)
      { id := "QUEUE1", name := "Alice", guests := some 2,
        notificationMethod := "sms", contact := "12345", hall := "Any",
        segment := "Any", position := 1, estimatedWaitMinutes := 3,
        joinedAt := 0, queueDate := "2026-05-01", timeSlot := "",
        notifiedAt5Min := true } [0, 1000, 2000]).2 = 0 :=
  (threshold_alert_once (fun _ => 0) 0 _ [0, 1000, 2000]).2.2.2 rfl

/-- C6 counterexample: an entry whose non-empty slot string "soon" fails
to parse, with position 3 and 10 minutes elapsed since join, gets a
tick-recomputed estimated wait of 0 — not the position-based estimate
max(0, 3 × 15 − 10) = 35 the claim requires. -/
theorem malformed_slot_tick_counterexample :
    (tickEntry (fun _ => 0) 600000
      { id := "QUEUE1", name := "Bob", guests := some 2,
        notificationMethod := "sms", contact := "12345", hall := "Any",
        segment := "Any", position := 3, estimatedWaitMinutes := 45,
        joinedAt := 0, queueDate := "2026-01-01", timeSlot := "soon",
        notifiedAt5Min := false }).1.estimatedWaitMinutes = 0 ∧
    max 0 ((3 : ℚ) * 15 - ((600000 - 0 : Int) : ℚ) / (1000 * 60)) = 35 ∧
    (0 : ℚ) ≠ 35 := by
  refine ⟨by decide, by norm_num, by norm_num⟩

/-- C6 amended: at join time an entry whose slot string fails to parse
falls back to the position-based initial estimate position × 15; on
recomputation ticks, a non-empty slot string (with a non-empty date)
that fails to parse yields an estimated wait of 0 instead of the
position-based estimate. -/
theorem malformed_slot_fallback :
    (∀ (d : String → Int) (today : String) (t : Int) (st : QueueState)
       (e : QueueEntry),
      jsTrim st.formData.name ≠ "" → jsTrim st.formData.contact ≠ "" →
      parseSlotTimes (d (joinQueueDate st.pendingData today))
        (joinTimeSlot st.pendingData) = none →
      (handleJoinQueue d today t none st).1.currentUserEntry = some e →
      e.estimatedWaitMinutes =
        ((calculatePosition st.queueDatabase (joinGuests st.pendingData)
          (joinHall st.pendingData) (joinSegment st.pendingData) : Nat) : ℚ) * 15) ∧
    (∀ (d : String → Int) (now : Int) (e : QueueEntry),
      e.timeSlot ≠ "" → e.queueDate ≠ "" →
      parseSlotTimes (d e.queueDate) e.timeSlot = none →
      (tickEntry d now e).1.estimatedWaitMinutes = 0) := by
  constructor
  · intro d today t st e hn hc hparse hcur
    rw [handleJoin_success d today t none st hn hc] at hcur
    have he : Option.getD (none : Option QueueEntry) (joinEntry d today t st) = e :=
      Option.some.inj hcur
    rw [← he]
    show (joinEntry d today t st).estimatedWaitMinutes = _
    rw [joinEntry_ewt]
    exact joinInitialWait_of_parse_none _ _ _ _ _ hparse
  · intro d now e hts hqd hparse
    rw [tickEntry_ewt]
    unfold computeEWT
    rw [if_pos ⟨hts, hqd⟩, hparse]

/-- Witness for the amended C6: the malformed slot "soon" falls back to
position × 15 at join time, and yields 0 on a tick. -/
theorem malformed_slot_fallback_witness :
    (tickEntry (fun _ => 0) 0
      { id := "QUEUE2", name := "Bob", guests := some 2,
        notificationMethod := "sms", contact := "12345", hall := "Any",
        segment := "Any", position := 2, estimatedWaitMinutes := 30,
        joinedAt := 0, queueDate := "2026-01-01", timeSlot := "soon",
        notifiedAt5Min := false }).1.estimatedWaitMinutes = 0 :=
  malformed_slot_fallback.2 (fun _ => 0) 0 _ (by decide) (by decide) (by decide)

lemma handleCancel_fail (st : QueueState) (cur : QueueEntry)
    (cancelOk : Bool) (refresh : RemoteList)
    (hcur : st.currentUserEntry = some cur)
    (hfail : cancelOk = false ∨ refresh = RemoteList.err) :
    handleCancelQueue true cancelOk refresh st =
      { queueDatabase := st.queueDatabase.filter (fun e => e.id ≠ cur.id)
        currentUserEntry := none
        formData := { name := "", contact := "" }
        pendingData := none
        showForm := false
        showStatus := false } := by
  unfold handleCancelQueue
  rw [hcur]
  rcases hfail with hco | hrf
  · subst hco
    rfl
  · subst hrf
    cases cancelOk
    · rfl
    · rfl

/-- C7: a confirmed cancellation with the remote cancel failing (or the
remote refresh failing) removes the current user's entry from the local
list and clears the current-user state, the form fields and the staged
pending data. -/
theorem cancel_clears_locally (st : QueueState) (cur : QueueEntry)
    (cancelOk : Bool) (refresh : RemoteList)
    (hcur : st.currentUserEntry = some cur)
    (hfail : cancelOk = false ∨ refresh = RemoteList.err) :
    (∀ e ∈ (handleCancelQueue true cancelOk refresh st).queueDatabase,
      e.id ≠ cur.id) ∧
    (handleCancelQueue true cancelOk refresh st).currentUserEntry = none ∧
    (handleCancelQueue true cancelOk refresh st).formData =
      { name := "", contact := "" } ∧
    (handleCancelQueue true cancelOk refresh st).pendingData = none := by
  rw [handleCancel_fail st cur cancelOk refresh hcur hfail]
  refine ⟨?_, rfl, rfl, rfl⟩
  intro e he
  simp only [List.mem_filter] at he
  simpa using he.2

/-- Witness for C7: cancelling with the remote cancel failing empties a
one-entry queue and clears the current-user state. -/
theorem cancel_clears_locally_witness :
    (handleCancelQueue true false RemoteList.err
      { queueDatabase :=
          [{ id := "QUEUE9", name := "Cara", guests := some 2,
             notificationMethod := "sms", contact := "12345", hall := "Any",
             segment := "Any", position := 1, estimatedWaitMinutes := 15,
             joinedAt := 0, queueDate := "2026-01-01", timeSlot := "",
             notifiedAt5Min := false }],
        currentUserEntry :=
          some { id := "QUEUE9", name := "Cara", guests := some 2,
                 notificationMethod := "sms", contact := "12345",
                 hall := "Any", segment := "Any", position := 1,
                 estimatedWaitMinutes := 15, joinedAt := 0,
                 queueDate := "2026-01-01", timeSlot := "",
                 notifiedAt5Min := false },
        formData := { name := "Cara", contact := "12345" },
        pendingData := none, showForm := true,
        showStatus := true }).currentUserEntry = none :=
  (cancel_clears_locally _ _ false RemoteList.err rfl (Or.inl rfl)).2.1

/-- C8: the join succeeds (reports a joined position) exactly when both
the trimmed name and the trimmed contact are non-empty; when either is
empty the handler aborts synchronously with a validation error and the
entire state — queue list, current-user entry and staged data — is
returned unchanged. -/
theorem join_validation (d : String → Int) (today : String) (t : Int)
    (remote : Option QueueEntry) (st : QueueState) :
    ((∃ p, (handleJoinQueue d today t remote st).2 = JoinResult.joined p) ↔
      (jsTrim st.formData.name ≠ "" ∧ jsTrim st.formData.contact ≠ "")) ∧
    (jsTrim st.formData.name = "" ∨ jsTrim st.formData.contact = "" →
      handleJoinQueue d today t remote st = (st, JoinResult.nameError) ∨
      handleJoinQueue d today t remote st = (st, JoinResult.contactError)) := by
  by_cases hn : jsTrim st.formData.name = ""
  · refine ⟨⟨?_, ?_⟩, fun _ => handleJoin_abort d today t remote st (Or.inl hn)⟩
    · rintro ⟨p, hp⟩
      unfold handleJoinQueue at hp
      rw [if_pos hn] at hp
      exact absurd hp (by simp)
    · rintro ⟨hn', -⟩
      exact absurd hn hn'
  · by_cases hc : jsTrim st.formData.contact = ""
    · refine ⟨⟨?_, ?_⟩, fun _ => handleJoin_abort d today t remote st (Or.inr hc)⟩
      · rintro ⟨p, hp⟩
        unfold handleJoinQueue at hp
        rw [if_neg hn, if_pos hc] at hp
        exact absurd hp (by simp)
      · rintro ⟨-, hc'⟩
        exact absurd hc hc'
    · refine ⟨⟨fun _ => ⟨hn, hc⟩, fun _ => ?_⟩, fun habs => ?_⟩
      · refine ⟨(Option.getD remote (joinEntry d today t st)).position, ?_⟩
        rw [handleJoin_success d today t remote st hn hc]
      · rcases habs with h | h
        · exact absurd h hn
        · exact absurd h hc

/-- Witness for C8: an empty name aborts the join with a validation
error and leaves the state untouched. -/
theorem join_validation_witness :
    handleJoinQueue (fun _ => 0) "2026-01-01" 0 none
        { queueDatabase := [], currentUserEntry := none,
          formData := { name := "   ", contact := "12345" },
          pendingData := none, showForm := false, showStatus := false } =
      ({ queueDatabase := [], currentUserEntry := none,
         formData := { name := "   ", contact := "12345" },
         pendingData := none, showForm := false, showStatus := false },
        JoinResult.nameError) ∨
    handleJoinQueue (fun _ => 0) "2026-01-01" 0 none
        { queueDatabase := [], currentUserEntry := none,
          formData := { name := "   ", contact := "12345" },
          pendingData := none, showForm := false, showStatus := false } =
      ({ queueDatabase := [], currentUserEntry := none,
         formData := { name := "   ", contact := "12345" },
         pendingData := none, showForm := false, showStatus := false },
        JoinResult.contactError) :=
  (join_validation (fun _ => 0) "2026-01-01" 0 none _).2 (Or.inl (by decide))

/-- C9 (code bug): a persisted string whose parse fails is treated as an
empty list by the `queueDatabase` loader (its `try`/`catch`), but the
`currentUserEntry` loader has no `try`/`catch`, so the same failure
propagates as an exception instead of yielding "no current entry"; only
an absent key yields the safe defaults in both loaders. -/
theorem current_user_parse_error_propagates :
    loadCurrentUserEntry (some (Except.error ())) = Except.error () ∧
    loadCurrentUserEntry (some (Except.error ())) ≠ Except.ok none ∧
    loadQueueDatabase 0 (some (Except.error ())) = [] ∧
    loadQueueDatabase 0 none = [] ∧
    loadCurrentUserEntry none = Except.ok none :=
  ⟨rfl, fun hcon => Except.noConfusion hcon, rfl, rfl, rfl⟩

/-- C10: with no staged reservation data (or a staged record with every
field absent), a valid join constructs the entry with guest count 2,
hall "Any", segment "Any", service date equal to today's date, empty
time slot and notification channel "sms", and computes its position and
estimated wait from those defaults. -/
theorem join_defaults (d : String → Int) (today : String) (t : Int)
    (st : QueueState) (e : QueueEntry)
    (hn : jsTrim st.formData.name ≠ "") (hc : jsTrim st.formData.contact ≠ "")
    (hpd : st.pendingData = none ∨ st.pendingData = some {})
    (hcur : (handleJoinQueue d today t none st).1.currentUserEntry = some e) :
    e.guests = some 2 ∧ e.hall = "Any" ∧ e.segment = "Any" ∧
    e.queueDate = today ∧ e.timeSlot = "" ∧ e.notificationMethod = "sms" ∧
    e.position = calculatePosition st.queueDatabase (some 2) "Any" "Any" ∧
    e.estimatedWaitMinutes =
      ((calculatePosition st.queueDatabase (some 2) "Any" "Any" : Nat) : ℚ) * 15 := by
  rw [handleJoin_success d today t none st hn hc] at hcur
  have he : Option.getD (none : Option QueueEntry) (joinEntry d today t st) = e :=
    Option.some.inj hcur
  rw [← he]
  rcases hpd with h | h
  · refine ⟨?_, ?_, ?_, ?_, ?_, rfl, ?_, ?_⟩
    · show joinGuests st.pendingData = some 2
      rw [h]; decide
    · show joinHall st.pendingData = "Any"
      rw [h]; rfl
    · show joinSegment st.pendingData = "Any"
      rw [h]; rfl
    · show joinQueueDate st.pendingData today = today
      rw [h]; rfl
    · show joinTimeSlot st.pendingData = ""
      rw [h]; rfl
    · show calculatePosition st.queueDatabase (joinGuests st.pendingData)
        (joinHall st.pendingData) (joinSegment st.pendingData) =
        calculatePosition st.queueDatabase (some 2) "Any" "Any"
      rw [h]; rfl
    · show joinInitialWait d (joinQueueDate st.pendingData today)
        (joinTimeSlot st.pendingData)
        (calculatePosition st.queueDatabase (joinGuests st.pendingData)
          (joinHall st.pendingData) (joinSegment st.pendingData)) t = _
      rw [h]
      show joinInitialWait d today ""
        (calculatePosition st.queueDatabase (some 2) "Any" "Any") t = _
      unfold joinInitialWait
      rw [if_neg (fun hcon => hcon.1 rfl)]
  · refine ⟨?_, ?_, ?_, ?_, ?_, rfl, ?_, ?_⟩
    · show joinGuests st.pendingData = some 2
      rw [h]; decide
    · show joinHall st.pendingData = "Any"
      rw [h]; rfl
    · show joinSegment st.pendingData = "Any"
      rw [h]; rfl
    · show joinQueueDate st.pendingData today = today
      rw [h]; rfl
    · show joinTimeSlot st.pendingData = ""
      rw [h]; rfl
    · show calculatePosition st.queueDatabase (joinGuests st.pendingData)
        (joinHall st.pendingData) (joinSegment st.pendingData) =
        calculatePosition st.queueDatabase (some 2) "Any" "Any"
      rw [h]; rfl
    · show joinInitialWait d (joinQueueDate st.pendingData today)
        (joinTimeSlot st.pendingData)
        (calculatePosition st.queueDatabase (joinGuests st.pendingData)
          (joinHall st.pendingData) (joinSegment st.pendingData)) t = _
      rw [h]
      show joinInitialWait d today ""
        (calculatePosition st.queueDatabase (some 2) "Any" "Any") t = _
      unfold joinInitialWait
      rw [if_neg (fun hcon => hcon.1 rfl)]

/-- Witness for C10: a default join from an empty queue with no staged
data produces an entry with guest count 2. -/
theorem join_defaults_witness :
    (joinEntry (fun _ => 0) "2026-02-03" 5
      { queueDatabase := [], currentUserEntry := none,
        formData := { name := "Dana", contact := "555" },
        pendingData := none, showForm := false,
        showStatus := false }).guests = some 2 :=
  (join_defaults (fun _ => 0) "2026-02-03" 5
    { queueDatabase := [], currentUserEntry := none,
      formData := { name := "Dana", contact := "555" },
      pendingData := none, showForm := false, showStatus := false }
    (joinEntry (fun _ => 0) "2026-02-03" 5
      { queueDatabase := [], currentUserEntry := none,
        formData := { name := "Dana", contact := "555" },
        pendingData := none, showForm := false, showStatus := false })
    (by decide) (by decide) (Or.inl rfl) rfl).1
